import Mathlib

/-!
Verification of the signal/power propagation and device-interaction
subsystem of a first-person 3D puzzle game (Rust, Bevy ECS + Avian3D).

The embedding is shallow: entities are natural numbers, component stores
are lists, each gameplay system or observer from the source becomes a
Lean function on an explicit state record.  Material/tween animation
side effects of the source handlers are visual only and carry no power
state; they are not part of the modelled state.  Timers are modelled in
whole milliseconds: a Bevy `Timer` accumulates elapsed time and reports
`finished()` once the accumulated time reaches its duration, which is
modelled as a saturating countdown of the remaining milliseconds.
-/

abbrev Entity := Nat

/-- Insert an entity into a list-modelled set (Bevy `insert` of a marker
component such as `Powered` is idempotent). -/
def insertE (l : List Entity) (e : Entity) : List Entity :=
  if e ∈ l then l else e :: l

/-- Remove an entity from a list-modelled set (`remove::<Powered>()`). -/
def removeE (l : List Entity) (e : Entity) : List Entity :=
  l.filter (fun x => x ≠ e)

theorem mem_insertE_self (l : List Entity) (e : Entity) : e ∈ insertE l e := by
  unfold insertE
  split
  · assumption
  · exact List.mem_cons_self _ _

theorem mem_insertE_of_mem {l : List Entity} {x : Entity} (e : Entity)
    (h : x ∈ l) : x ∈ insertE l e := by
  unfold insertE
  split
  · exact h
  · exact List.mem_cons_of_mem _ h

theorem mem_insertE_iff (l : List Entity) (e x : Entity) :
    x ∈ insertE l e ↔ x ∈ l ∨ x = e := by
  unfold insertE
  split
  · constructor
    · exact Or.inl
    · rintro (h | rfl) <;> assumption
  · simp [or_comm, eq_comm]

theorem mem_removeE_iff (l : List Entity) (e x : Entity) :
    x ∈ removeE l e ↔ x ∈ l ∧ x ≠ e := by
  unfold removeE
  simp

theorem not_mem_removeE_self (l : List Entity) (e : Entity) :
    e ∉ removeE l e := by
  simp [mem_removeE_iff]

/-- Folding `insertE` preserves membership of the accumulator. -/
theorem mem_foldl_insertE_of_mem {t : Entity} (ps : List Entity)
    {acc : List Entity} (h : t ∈ acc) : t ∈ ps.foldl insertE acc := by
  induction ps generalizing acc with
  | nil => exact h
  | cons p ps ih => exact ih (mem_insertE_of_mem _ h)

/-- Folding `insertE` over a list of targets: every target ends up a member. -/
theorem mem_foldl_insertE_of_target {ps : List Entity} {t : Entity}
    (acc : List Entity) (h : t ∈ ps) : t ∈ ps.foldl insertE acc := by
  induction ps generalizing acc with
  | nil => cases h
  | cons p ps ih =>
    simp only [List.foldl_cons]
    rcases List.mem_cons.mp h with rfl | h
    · exact mem_foldl_insertE_of_mem _ (mem_insertE_self _ _)
    · exact ih _ h

/-- Membership after folding `removeE`: survived the accumulator and is
not among the removed targets. -/
theorem mem_foldl_removeE_iff (ps : List Entity) (acc : List Entity)
    (x : Entity) : x ∈ ps.foldl removeE acc ↔ x ∈ acc ∧ x ∉ ps := by
  induction ps generalizing acc with
  | nil => simp
  | cons p ps ih =>
    simp only [List.foldl_cons, ih, mem_removeE_iff, List.mem_cons]
    constructor
    · rintro ⟨⟨hx, hne⟩, hnot⟩
      exact ⟨hx, by rintro (rfl | h) <;> [exact hne rfl; exact hnot h]⟩
    · rintro ⟨hx, hnot⟩
      exact ⟨⟨hx, fun h => hnot (Or.inl h)⟩, fun h => hnot (Or.inr h)⟩

/-! ### Pressure plates (`src/game/pressure_plate.rs`)

`PressurePlateDetector` stores the set of entities currently overlapping
the plate's detection box and the pressed flag.  The fixed-timestep
system `update_pressure_plate_overlaps` recomputes the overlap set from
a spatial query over the Player and Device collision layers, excluding
the plate entity itself and its children, fires `PressurePlatePressed`
on the unpressed-to-pressed transition and `PressurePlateReleased` when
the set becomes empty. -/

structure PressurePlateDetector where
  overlapping_entities : List Entity
  is_pressed : Bool
deriving Repr, DecidableEq

/-- The spatial-query post-filter of `update_pressure_plate_overlaps`:
keep hits that are neither the plate itself nor one of its children. -/
def filtered_overlaps (plate : Entity) (children hits : List Entity) :
    List Entity :=
  hits.filter (fun e => e ≠ plate && !children.contains e)

/-- Result of one run of `update_pressure_plate_overlaps` for one plate:
new detector state plus which observer events were triggered. -/
structure PlateTick where
  detector : PressurePlateDetector
  pressedFired : Bool
  releasedFired : Bool
deriving Repr, DecidableEq

/-- One run of `update_pressure_plate_overlaps` for a single plate, given
the already-filtered current overlap set.  Mirrors the source order:
first the new-entity loop (setting `is_pressed` and firing
`PressurePlatePressed` at most once), then the overlap-set replacement,
then the release check. -/
def update_pressure_plate_overlaps (d : PressurePlateDetector)
    (current : List Entity) : PlateTick :=
  let any_new := current.any (fun e => !d.overlapping_entities.contains e)
  let pressedFired := any_new && !d.is_pressed
  let pressed1 := d.is_pressed || any_new
  if pressed1 && current.isEmpty then
    { detector := { overlapping_entities := current, is_pressed := false },
      pressedFired := pressedFired, releasedFired := true }
  else
    { detector := { overlapping_entities := current, is_pressed := pressed1 },
      pressedFired := pressedFired, releasedFired := false }

/-- Observer `on_pressure_plate_pressed`: inserts `Powered` on every
entity in the plate's `Powers` relation (when the plate query succeeds). -/
def on_pressure_plate_pressed (powers powered : List Entity) : List Entity :=
  powers.foldl insertE powered

/-- Observer `on_pressure_plate_released`: removes `Powered` from every
entity in the plate's `Powers` relation (when the plate query succeeds). -/
def on_pressure_plate_released (powers powered : List Entity) : List Entity :=
  powers.foldl removeE powered

/-- One fixed-timestep plate update followed by the command flush that
runs the pressed/released observers.  `powersQ` is `some` the plate's
`Powers` target list when the observer's plate query succeeds (the plate
has `Children` and `Powers`), `none` when it fails and the observer
silently skips. -/
def plate_fixed_tick (d : PressurePlateDetector) (current : List Entity)
    (powersQ : Option (List Entity)) (powered : List Entity) :
    PlateTick × List Entity :=
  let t := update_pressure_plate_overlaps d current
  let powered1 :=
    if t.pressedFired then
      match powersQ with
      | some ps => on_pressure_plate_pressed ps powered
      | none => powered
    else powered
  let powered2 :=
    if t.releasedFired then
      match powersQ with
      | some ps => on_pressure_plate_released ps powered1
      | none => powered1
    else powered1
  (t, powered2)

theorem update_plate_overlapping (d : PressurePlateDetector)
    (c : List Entity) :
    (update_pressure_plate_overlaps d c).detector.overlapping_entities = c := by
  simp only [update_pressure_plate_overlaps]
  split <;> rfl

theorem update_plate_pressedFired (d : PressurePlateDetector)
    (c : List Entity) :
    (update_pressure_plate_overlaps d c).pressedFired
      = (c.any (fun e => !d.overlapping_entities.contains e) && !d.is_pressed) := by
  simp only [update_pressure_plate_overlaps]
  split <;> rfl

theorem update_plate_nil (d : PressurePlateDetector) :
    update_pressure_plate_overlaps d []
      = { detector := { overlapping_entities := [], is_pressed := false },
          pressedFired := false,
          releasedFired := d.is_pressed } := by
  simp only [update_pressure_plate_overlaps]
  cases h : d.is_pressed <;> simp [h]

theorem update_plate_cons (d : PressurePlateDetector) (x : Entity)
    (xs : List Entity) :
    update_pressure_plate_overlaps d (x :: xs)
      = { detector :=
            { overlapping_entities := x :: xs,
              is_pressed :=
                d.is_pressed
                  || (x :: xs).any (fun e => !d.overlapping_entities.contains e) },
          pressedFired :=
            (x :: xs).any (fun e => !d.overlapping_entities.contains e)
              && !d.is_pressed,
          releasedFired := false } := by
  simp only [update_pressure_plate_overlaps]
  simp

/-- C1: after each run of `update_pressure_plate_overlaps` the plate's
`is_pressed` flag is true iff its recorded overlap set (the hits of the
Player/Device-layer spatial query minus the plate itself and its
children) is non-empty; the `PressurePlatePressed` event fires exactly
on the unpressed-to-pressed transition and the following command flush
inserts `Powered` on every entity of the plate's `Powers` relation; the
`PressurePlateReleased` event fires exactly on the pressed-to-released
transition (the overlap set becoming empty) and the flush removes
`Powered` from every entity of that relation. -/
theorem C1_pressure_plate_tick (d : PressurePlateDetector) (plate : Entity)
    (children hits powers powered : List Entity)
    (c : List Entity) (r : PlateTick × List Entity)
    (hc : c = filtered_overlaps plate children hits)
    (hr : r = plate_fixed_tick d c (some powers) powered)
    (hinv : d.is_pressed = !d.overlapping_entities.isEmpty) :
    (∀ e, e ∈ r.1.detector.overlapping_entities ↔
        e ∈ hits ∧ e ≠ plate ∧ e ∉ children) ∧
    (r.1.detector.is_pressed = !r.1.detector.overlapping_entities.isEmpty) ∧
    (r.1.pressedFired = (!d.is_pressed && r.1.detector.is_pressed)) ∧
    (r.1.releasedFired = (d.is_pressed && !r.1.detector.is_pressed)) ∧
    (r.1.pressedFired = true → ∀ t ∈ powers, t ∈ r.2) ∧
    (r.1.releasedFired = true → ∀ t ∈ powers, t ∉ r.2) := by
  have hmem : ∀ e, e ∈ c ↔ e ∈ hits ∧ e ≠ plate ∧ e ∉ children := by
    intro e
    simp [hc, filtered_overlaps, List.mem_filter]
  have hover : r.1.detector.overlapping_entities = c := by
    rw [hr]
    exact update_plate_overlapping d c
  refine ⟨fun e => hover ▸ hmem e, ?_⟩
  cases hcc : c with
  | nil =>
    subst hcc
    rw [hr] at *
    simp only [plate_fixed_tick, update_plate_nil]
    cases hp : d.is_pressed <;>
      simp_all [on_pressure_plate_released, mem_foldl_removeE_iff]
  | cons x xs =>
    subst hcc
    rw [hr] at *
    simp only [plate_fixed_tick, update_plate_cons]
    by_cases hpr : d.is_pressed = true
    · simp [hpr]
    · have hp : d.is_pressed = false := by
        cases h : d.is_pressed
        · rfl
        · exact absurd h hpr
      have hempty : d.overlapping_entities = [] := by
        rw [hp] at hinv
        cases h : d.overlapping_entities with
        | nil => rfl
        | cons a as => rw [h] at hinv; simp at hinv
      have hany : (x :: xs).any
          (fun e => !d.overlapping_entities.contains e) = true := by
        simp [hempty]
      simp [hp, hempty, on_pressure_plate_pressed]
      intro t ht
      exact mem_foldl_insertE_of_target _ ht

/-- Witness for `C1_pressure_plate_tick` at a concrete state: plate 0
with child 1, detector previously empty and unpressed, a hit on
entity 2, powering target 7. -/
theorem C1_pressure_plate_tick_witness :
    (⟨[], false⟩ : PressurePlateDetector).is_pressed
        = !(⟨[], false⟩ : PressurePlateDetector).overlapping_entities.isEmpty ∧
    (∀ t ∈ [7], t ∈
      (plate_fixed_tick ⟨[], false⟩ (filtered_overlaps 0 [1] [1, 2])
        (some [7]) []).2) :=
  ⟨rfl, (C1_pressure_plate_tick ⟨[], false⟩ 0 [1] [1, 2] [7] []
      (filtered_overlaps 0 [1] [1, 2])
      (plate_fixed_tick ⟨[], false⟩ (filtered_overlaps 0 [1] [1, 2])
        (some [7]) []) rfl rfl rfl).2.2.2.2.1 (by decide)⟩

/-! ### Door poles and timed power decay (`src/game/door.rs`)

`door_pole_direct_signal` gives a door pole `Powered` plus a 2-second
`PoweredTimer` when a `DirectSignal` reaches it.  The fixed-timestep
system `update_powered_timers` ticks every `PoweredTimer`; on finish it
removes `Powered` unless the entity is `PoweredBy` a charge pad that is
`Powered`, carries the `ChargePad` tag and has no `PoweredTimer` of its
own (`q_charge_pad_powered` filters `With<ChargePad>,
Without<PoweredTimer>`), and always removes the `PoweredTimer`.
Timers carry their remaining milliseconds. -/

structure PowerWorld where
  powered : List Entity
  poweredBy : List (Entity × Entity)
  powered_timers : List (Entity × Nat)
  door_poles : List Entity
  charge_pads : List Entity
deriving Repr, DecidableEq

def DOOR_POLE_POWER_DURATION_SEC : Nat := 2

/-- Bevy component insert with replacement, for a timer component. -/
def setTimerMs (ts : List (Entity × Nat)) (e : Entity) (ms : Nat) :
    List (Entity × Nat) :=
  (e, ms) :: ts.filter (fun p => p.1 ≠ e)

/-- Observer `door_pole_direct_signal`: only entities with the
`DoorPole` tag react; they become `Powered` with a fresh 2-second
`PoweredTimer`. -/
def door_pole_direct_signal (w : PowerWorld) (target : Entity) : PowerWorld :=
  if target ∈ w.door_poles then
    { w with
      powered := insertE w.powered target,
      powered_timers :=
        setTimerMs w.powered_timers target (DOOR_POLE_POWER_DURATION_SEC * 1000) }
  else w

/-- The `should_stay_powered` check of `update_powered_timers`: the
entity is `PoweredBy` something that is a `ChargePad`, is `Powered`, and
has no `PoweredTimer` (all read from the pre-run state, since command
application is deferred). -/
def should_stay_powered (w : PowerWorld) (e : Entity) : Bool :=
  match List.lookup e w.poweredBy with
  | some p =>
      decide (p ∈ w.charge_pads) && decide (p ∈ w.powered)
        && (List.lookup p w.powered_timers).isNone
  | none => false

/-- One run of the fixed-timestep system `update_powered_timers` with
frame delta `deltaMs`: every timer ticks; finished timers are removed,
and their entity loses `Powered` unless `should_stay_powered`. -/
def update_powered_timers (w : PowerWorld) (deltaMs : Nat) : PowerWorld :=
  let finished := w.powered_timers.filter (fun p => p.2 ≤ deltaMs)
  let remaining :=
    (w.powered_timers.filter (fun p => ¬ p.2 ≤ deltaMs)).map
      (fun p => (p.1, p.2 - deltaMs))
  let powered := finished.foldl
    (fun acc p => if should_stay_powered w p.1 then acc else removeE acc p.1)
    w.powered
  { w with powered := powered, powered_timers := remaining }

/-- Membership after folding a conditional component removal over a list
of (entity, timer) pairs. -/
theorem mem_foldl_condRemove (cond : Entity → Bool)
    (ps : List (Entity × Nat)) (acc : List Entity) (x : Entity) :
    x ∈ ps.foldl
        (fun acc p => if cond p.1 then acc else removeE acc p.1) acc ↔
      x ∈ acc ∧ ∀ p ∈ ps, cond p.1 = false → p.1 ≠ x := by
  induction ps generalizing acc with
  | nil => simp
  | cons p ps ih =>
    simp only [List.foldl_cons, ih, List.forall_mem_cons]
    by_cases h : cond p.1
    · simp [h]
    · simp only [Bool.not_eq_true] at h
      simp [h, mem_removeE_iff]
      constructor
      · rintro ⟨⟨hx, hne⟩, hr⟩
        exact ⟨hx, fun heq => hne heq.symm, hr⟩
      · rintro ⟨hx, hne, hr⟩
        exact ⟨⟨hx, fun heq => hne heq.symm⟩, hr⟩

/-- In a component store with no duplicate keys, a key determines its
value. -/
theorem nodup_keys_eq {l : List (Entity × Nat)}
    (h : (l.map Prod.fst).Nodup) {e : Entity} {a b : Nat}
    (ha : (e, a) ∈ l) (hb : (e, b) ∈ l) : a = b := by
  induction l with
  | nil => cases ha
  | cons p t ih =>
    simp only [List.map_cons, List.nodup_cons] at h
    rcases List.mem_cons.mp ha with ha' | ha' <;>
      rcases List.mem_cons.mp hb with hb' | hb'
    · subst ha'
      exact (Prod.ext_iff.mp hb').2.symm
    · subst ha'
      exact absurd (List.mem_map_of_mem Prod.fst hb') h.1
    · subst hb'
      exact absurd (List.mem_map_of_mem Prod.fst ha') h.1
    · exact ih h.2 ha' hb'

/-- C2 (amended): a door pole that receives a direct signal becomes
`Powered` with a fresh 2-second `PoweredTimer`; when an entity's
`PoweredTimer` finishes during a run of `update_powered_timers`, the
timer is removed and `Powered` is removed unless the entity is at that
moment `PoweredBy` a charge pad that is itself `Powered` AND does not
itself carry a `PoweredTimer` (the code's `q_charge_pad_powered` query
filters `Without<PoweredTimer>`). -/
theorem C2_timed_power_decay (w : PowerWorld) (pole e : Entity)
    (rem deltaMs : Nat)
    (hnodup : (w.powered_timers.map Prod.fst).Nodup) :
    (pole ∈ w.door_poles →
      pole ∈ (door_pole_direct_signal w pole).powered ∧
      List.lookup pole (door_pole_direct_signal w pole).powered_timers
        = some (DOOR_POLE_POWER_DURATION_SEC * 1000)) ∧
    ((e, rem) ∈ w.powered_timers → rem ≤ deltaMs →
      (∀ r', (e, r') ∉ (update_powered_timers w deltaMs).powered_timers) ∧
      (should_stay_powered w e = false →
        e ∉ (update_powered_timers w deltaMs).powered) ∧
      (should_stay_powered w e = true →
        (e ∈ (update_powered_timers w deltaMs).powered ↔ e ∈ w.powered))) := by
  constructor
  · intro hpole
    unfold door_pole_direct_signal
    rw [if_pos hpole]
    exact ⟨mem_insertE_self _ _, by simp [setTimerMs, List.lookup]⟩
  · intro hmem hfin
    have hpow : ∀ x, x ∈ (update_powered_timers w deltaMs).powered ↔
        x ∈ w.powered ∧
          ∀ p ∈ w.powered_timers.filter (fun p => p.2 ≤ deltaMs),
            should_stay_powered w p.1 = false → p.1 ≠ x := by
      intro x
      exact mem_foldl_condRemove (should_stay_powered w) _ _ x
    refine ⟨?_, ?_, ?_⟩
    · intro r' hr'
      have : (e, r') ∈ (w.powered_timers.filter
          (fun p => ¬ p.2 ≤ deltaMs)).map (fun p => (p.1, p.2 - deltaMs)) := hr'
      rcases List.mem_map.mp this with ⟨p, hp, heq⟩
      have hp' := List.mem_filter.mp hp
      have hkey : p.1 = e := congrArg Prod.fst heq
      have : p.2 = rem := by
        have : (e, p.2) ∈ w.powered_timers := by
          have : p = (e, p.2) := Prod.ext hkey rfl
          exact this ▸ hp'.1
        exact nodup_keys_eq hnodup this hmem
      rw [this] at hp'
      have hnot : ¬ rem ≤ deltaMs := by simpa using hp'.2
      exact hnot hfin
    · intro hstay
      intro hcontra
      have h2 := (hpow e).mp hcontra
      apply h2.2 (e, rem) (List.mem_filter.mpr ⟨hmem, by simpa using hfin⟩) hstay
      rfl
    · intro hstay
      rw [hpow e]
      constructor
      · exact fun h => h.1
      · intro h
        refine ⟨h, fun p hp hfalse hkey => ?_⟩
        have hrem : p.2 = rem := by
          have hpm := (List.mem_filter.mp hp).1
          have : p = (e, p.2) := Prod.ext hkey rfl
          exact nodup_keys_eq hnodup (this ▸ hpm) hmem
        rw [hkey] at hfalse
        rw [hstay] at hfalse
        exact Bool.true_eq_false.mp hfalse

/-- Concrete world for the C2 witness: door pole 1, entity 3 powered
with a finishing timer and no `PoweredBy`. -/
def c2World : PowerWorld :=
  { powered := [1, 3], poweredBy := [], powered_timers := [(3, 400)],
    door_poles := [1], charge_pads := [] }

/-- Witness for `C2_timed_power_decay` at `c2World`. -/
theorem C2_timed_power_decay_witness :
    (c2World.powered_timers.map Prod.fst).Nodup ∧
    ((1 ∈ c2World.door_poles →
      1 ∈ (door_pole_direct_signal c2World 1).powered ∧
      List.lookup 1 (door_pole_direct_signal c2World 1).powered_timers
        = some (DOOR_POLE_POWER_DURATION_SEC * 1000)) ∧
    ((3, 400) ∈ c2World.powered_timers → 400 ≤ 400 →
      (∀ r', (3, r') ∉ (update_powered_timers c2World 400).powered_timers) ∧
      (should_stay_powered c2World 3 = false →
        3 ∉ (update_powered_timers c2World 400).powered) ∧
      (should_stay_powered c2World 3 = true →
        (3 ∈ (update_powered_timers c2World 400).powered ↔
          3 ∈ c2World.powered)))) :=
  ⟨by decide, C2_timed_power_decay c2World 1 3 400 400 (by decide)⟩

/-- Concrete world for the C2 counterexample: entity 1 has a finishing
`PoweredTimer` and is `PoweredBy` charge pad 2 which is itself `Powered`
— but pad 2 also carries a `PoweredTimer`. -/
def c2CexWorld : PowerWorld :=
  { powered := [1, 2], poweredBy := [(1, 2)],
    powered_timers := [(1, 500), (2, 5000)],
    door_poles := [1], charge_pads := [2] }

/-- C2 counterexample: entity 1's timer finishes while it is `PoweredBy`
charge pad 2, and pad 2 is itself `Powered`; the claim says entity 1
keeps `Powered`, but `update_powered_timers` removes it because the
pad-powered query also requires the pad to have no `PoweredTimer`. -/
theorem C2_counterexample :
    List.lookup 1 c2CexWorld.poweredBy = some 2 ∧
    2 ∈ c2CexWorld.charge_pads ∧
    2 ∈ c2CexWorld.powered ∧
    (1, 500) ∈ c2CexWorld.powered_timers ∧
    (500 : Nat) ≤ 500 ∧
    1 ∉ (update_powered_timers c2CexWorld 500).powered := by
  decide

/-! ### Weighted cubes: discharge, cooldown and signal consumption
(`src/game/weighted_cube.rs`, `src/game/signals.rs`)

Every new weighted cube's collider child receives TWO
`OnCollisionStart` observers: `cube_consume_signal` from
`weighted_cube.rs` (registered by that module's `register_cube_signals`)
and the older `cube_consume_signal` from `signals.rs` (registered by the
`signals_plugin` system of the same name); both fire on a signal
collision.  In Avian's `OnCollisionStart` the `collider` and `body`
fields name the OTHER side of the contact: for an observer on the
cube's collider struck by a signal, `trigger.collider` is the signal's
collider and `trigger.body` the signal's own kinematic rigid body (the
signal entity, which is spawned with `RigidBody::Kinematic`) — never
the cube.  `DirectSignal` is a plain marker event (its declaration
lives in `signals.rs` next to `Powered`); triggering it on a cube runs
the `cube_direct_signal` observer. -/

structure CubeWorld where
  powered : List Entity
  powered_timers : List (Entity × Nat)
  discharging : List (Entity × Nat)
  inert : List Entity
  held : List Entity
  powering_up : List Entity
  poweredBy : List (Entity × Entity)
  cubes : List Entity
  signals : List Entity
  colliderOf : List (Entity × Entity)
deriving Repr, DecidableEq

/-- `CubeDischarge::new()` uses `POWER_ANIMATION_DURATION_SEC` = 1.0 s. -/
def CUBE_DISCHARGE_MS : Nat := 1000

/-- Avian `ColliderOf` resolution as used by the cube handlers: the
collider's rigid body if the component is present, the entity itself
otherwise. -/
def resolve_body (w : CubeWorld) (t : Entity) : Entity :=
  match List.lookup t w.colliderOf with
  | some b => b
  | none => t

/-- One iteration of `cube_discharge_detection` for one cube, given the
hit list of the 20-unit Device-layer sphere query.  Returns the new
world and the list of entities a `DirectSignal` was triggered on.  The
leading guard is the system's query filter (`With<WeightedCube>,
With<Powered>, Without<Held>, Without<PoweringUp>`). -/
def cube_discharge_detection (w : CubeWorld) (cube : Entity)
    (overlapping : List Entity) : CubeWorld × List Entity :=
  if cube ∈ w.cubes ∧ cube ∈ w.powered ∧ cube ∉ w.held ∧
      cube ∉ w.powering_up then
    let targets := overlapping.filterMap (fun collider =>
      if collider = cube then none
      else
        let target := resolve_body w collider
        if target = cube ∨ (List.lookup target w.discharging).isSome ∨
            target ∈ w.powered ∨ target ∈ w.inert then none
        else some target)
    if targets.isEmpty then (w, [])
    else
      ({ w with
          powered := removeE w.powered cube,
          discharging := setTimerMs w.discharging cube CUBE_DISCHARGE_MS },
        targets)
  else (w, [])

/-- Observer `cube_direct_signal`: powers the target unless it is
already `Powered` or in `CubeDischarge` cooldown. -/
def cube_direct_signal (w : CubeWorld) (target : Entity) : CubeWorld :=
  if target ∉ w.powered ∧ (List.lookup target w.discharging).isNone then
    { w with powered := insertE w.powered target }
  else w

/-- Observer `cube_consume_signal` of `weighted_cube.rs`: on a signal
collision with the cube's collider, if the resolved body is not
(`Powered` without `PoweredTimer`) and not in `CubeDischarge` cooldown,
trigger `DirectSignal` on the body and despawn the signal. -/
def wc_cube_consume_signal (w : CubeWorld) (collider target : Entity) :
    CubeWorld :=
  if collider ∈ w.signals then
    let body := resolve_body w target
    if (body ∉ w.powered ∨ (List.lookup body w.powered_timers).isSome) ∧
        (List.lookup body w.discharging).isNone then
      let w1 := cube_direct_signal w body
      { w1 with signals := removeE w1.signals collider }
    else w
  else w

/-- Observer `cube_consume_signal` of `signals.rs` (the duplicate older
handler, also attached to every cube collider).  `body` is Avian's
`OnCollisionStart.body`: the rigid body of the colliding collider
(`trigger.collider`) — on a signal collision this is the signal's own
kinematic rigid body, NOT the struck cube.  The handler therefore
inserts `Powered` on the signal entity itself (named `device_body` in
the source, a misnomer) and despawns the signal whenever that body is
not `Powered`. -/
def signals_cube_consume_signal (w : CubeWorld) (collider : Entity)
    (body : Option Entity) : CubeWorld :=
  match body with
  | some device_body =>
    if collider ∈ w.signals then
      if device_body ∉ w.powered then
        { w with
            powered := insertE w.powered device_body,
            signals := removeE w.signals collider }
      else w
    else w
  | none => w

/-- One run of `update_cube_discharge_timers` (query filtered on
`With<WeightedCube>`): tick each cube's `CubeDischarge` timer, remove it
on finish and re-insert `Powered` iff the cube still has a `PoweredBy`
relationship. -/
def update_cube_discharge_timers (w : CubeWorld) (deltaMs : Nat) :
    CubeWorld :=
  let isCube := fun (p : Entity × Nat) => decide (p.1 ∈ w.cubes)
  let finished := w.discharging.filter (fun p => isCube p && p.2 ≤ deltaMs)
  let remaining := w.discharging.filterMap (fun p =>
    if isCube p then
      if p.2 ≤ deltaMs then none else some (p.1, p.2 - deltaMs)
    else some p)
  let powered := finished.foldl
    (fun acc p =>
      if (List.lookup p.1 w.poweredBy).isSome then insertE acc p.1 else acc)
    w.powered
  { w with discharging := remaining, powered := powered }

/-- Membership after folding a conditional component insertion over a
list of (entity, timer) pairs. -/
theorem mem_foldl_condInsert (cond : Entity → Bool)
    (ps : List (Entity × Nat)) (acc : List Entity) (x : Entity) :
    x ∈ ps.foldl
        (fun acc p => if cond p.1 then insertE acc p.1 else acc) acc ↔
      x ∈ acc ∨ ∃ p ∈ ps, cond p.1 = true ∧ p.1 = x := by
  induction ps generalizing acc with
  | nil => simp
  | cons p ps ih =>
    simp only [List.foldl_cons, ih, List.mem_cons]
    by_cases h : cond p.1
    · simp only [if_pos h, mem_insertE_iff]
      constructor
      · rintro ((hx | rfl) | ⟨q, hq, hcq, rfl⟩)
        · exact Or.inl hx
        · exact Or.inr ⟨p, Or.inl rfl, h, rfl⟩
        · exact Or.inr ⟨q, Or.inr hq, hcq, rfl⟩
      · rintro (hx | ⟨q, hq | hq, hcq, rfl⟩)
        · exact Or.inl (Or.inl hx)
        · exact Or.inl (Or.inr (congrArg Prod.fst hq))
        · exact Or.inr ⟨q, hq, hcq, rfl⟩
    · simp only [if_neg h]
      constructor
      · rintro (hx | ⟨q, hq, hcq, rfl⟩)
        · exact Or.inl hx
        · exact Or.inr ⟨q, Or.inr hq, hcq, rfl⟩
      · rintro (hx | ⟨q, hq | hq, hcq, rfl⟩)
        · exact Or.inl hx
        · exfalso
          rw [hq] at hcq
          exact h hcq
        · exact Or.inr ⟨q, hq, hcq, rfl⟩

/-- A lookup on an association list with no entry for the key is `none`. -/
theorem lookup_eq_none_of_forall {β : Type} {l : List (Entity × β)} {k : Entity}
    (h : ∀ p ∈ l, p.1 ≠ k) : List.lookup k l = none := by
  induction l with
  | nil => rfl
  | cons p t ih =>
    have hk : (k == p.1) = false := by
      have := h p (List.mem_cons_self _ _)
      simp [beq_iff_eq]
      exact fun heq => this heq.symm
    cases p with
    | mk a b =>
      simp only [List.lookup]
      rw [show (k == a) = false from hk]
      exact ih fun q hq => h q (List.mem_cons_of_mem _ hq)

/-- C3: a powered, unheld, not-powering-up weighted cube that detects
qualifying nearby devices triggers a `DirectSignal` on each of them
(each is not the cube, not discharging, not powered, not inert), loses
`Powered` and gains a `CubeDischarge` cooldown; while the cooldown is
present the cube is never re-powered by a direct-signal trigger, by the
weighted-cube signal-collision handler, or by the legacy signals-module
collision handler (whose `OnCollisionStart.body` is the colliding
signal's own rigid body — an entity distinct from the cube — so that
handler never touches the cube's `Powered`); when the cooldown finishes
the cube is re-powered immediately iff it still has a `PoweredBy`
relationship. -/
theorem C3_cube_discharge_cooldown (w : CubeWorld)
    (cube collider target signalBody : Entity) (hits : List Entity)
    (rem deltaMs : Nat)
    (hnodup : (w.discharging.map Prod.fst).Nodup)
    (hsb : signalBody ≠ cube) :
    (cube ∈ w.cubes → cube ∈ w.powered → cube ∉ w.held →
      cube ∉ w.powering_up →
      (cube_discharge_detection w cube hits).2 ≠ [] →
        cube ∉ (cube_discharge_detection w cube hits).1.powered ∧
        List.lookup cube (cube_discharge_detection w cube hits).1.discharging
          = some CUBE_DISCHARGE_MS ∧
        ∀ t ∈ (cube_discharge_detection w cube hits).2,
          t ≠ cube ∧ (List.lookup t w.discharging).isNone ∧
            t ∉ w.powered ∧ t ∉ w.inert) ∧
    ((List.lookup cube w.discharging).isSome →
      cube_direct_signal w cube = w ∧
      (resolve_body w target = cube →
        wc_cube_consume_signal w collider target = w) ∧
      (cube ∈ (signals_cube_consume_signal w collider
          (some signalBody)).powered ↔ cube ∈ w.powered)) ∧
    ((cube, rem) ∈ w.discharging → cube ∈ w.cubes → rem ≤ deltaMs →
      cube ∉ w.powered →
      List.lookup cube (update_cube_discharge_timers w deltaMs).discharging
        = none ∧
      (cube ∈ (update_cube_discharge_timers w deltaMs).powered ↔
        (List.lookup cube w.poweredBy).isSome)) := by
  refine ⟨?_, ?_, ?_⟩
  · intro h1 h2 h3 h4 hne
    unfold cube_discharge_detection at *
    rw [if_pos ⟨h1, h2, h3, h4⟩] at *
    by_cases hemp : (hits.filterMap (fun collider =>
        if collider = cube then none
        else
          let target := resolve_body w collider
          if target = cube ∨ (List.lookup target w.discharging).isSome ∨
              target ∈ w.powered ∨ target ∈ w.inert then none
          else some target)).isEmpty
    · rw [if_pos hemp] at hne
      exact absurd rfl hne
    · rw [if_neg hemp] at *
      refine ⟨not_mem_removeE_self _ _, by simp [setTimerMs, List.lookup], ?_⟩
      intro t ht
      rcases List.mem_filterMap.mp ht with ⟨c, _, hf⟩
      by_cases hcc : c = cube
      · rw [if_pos hcc] at hf
        cases hf
      · rw [if_neg hcc] at hf
        simp only at hf
        by_cases hcond : resolve_body w c = cube ∨
            (List.lookup (resolve_body w c) w.discharging).isSome ∨
            resolve_body w c ∈ w.powered ∨ resolve_body w c ∈ w.inert
        · rw [if_pos hcond] at hf
          cases hf
        · rw [if_neg hcond] at hf
          push_neg at hcond
          cases hf
          refine ⟨hcond.1, ?_, hcond.2.2.1, hcond.2.2.2⟩
          cases hl : List.lookup (resolve_body w c) w.discharging with
          | none => rfl
          | some v => exact absurd (by rw [hl]; rfl) hcond.2.1
  · intro hdis
    refine ⟨?_, ?_, ?_⟩
    · unfold cube_direct_signal
      rw [if_neg]
      rintro ⟨-, hnone⟩
      rw [Option.isNone_iff_eq_none] at hnone
      rw [hnone] at hdis
      cases hdis
    · intro hres
      unfold wc_cube_consume_signal
      by_cases hs : collider ∈ w.signals
      · rw [if_pos hs]
        simp only [hres]
        rw [if_neg]
        rintro ⟨-, hnone⟩
        rw [Option.isNone_iff_eq_none] at hnone
        rw [hnone] at hdis
        cases hdis
      · rw [if_neg hs]
    · simp only [signals_cube_consume_signal]
      by_cases hs : collider ∈ w.signals
      · rw [if_pos hs]
        by_cases hp : signalBody ∉ w.powered
        · rw [if_pos hp]
          dsimp only
          rw [mem_insertE_iff]
          constructor
          · rintro (hx | hx)
            · exact hx
            · exact absurd hx.symm hsb
          · exact Or.inl
        · rw [if_neg hp]
      · rw [if_neg hs]
  · intro hmem hcube hfin hnp
    constructor
    · apply lookup_eq_none_of_forall
      intro p hp
      simp only [update_cube_discharge_timers] at hp
      rcases List.mem_filterMap.mp hp with ⟨q, hq, hf⟩
      by_cases hqc : q.1 ∈ w.cubes
      · rw [if_pos (by simpa using hqc)] at hf
        by_cases hle : q.2 ≤ deltaMs
        · rw [if_pos hle] at hf
          cases hf
        · rw [if_neg hle] at hf
          cases hf
          intro hkey
          simp only at hkey
          apply hle
          have : q = (cube, q.2) := Prod.ext hkey rfl
          have := nodup_keys_eq hnodup (this ▸ hq) hmem
          rw [this]
          exact hfin
      · rw [if_neg (by simpa using hqc)] at hf
        cases hf
        intro hkey
        rw [hkey] at hqc
        exact hqc hcube
    · simp only [update_cube_discharge_timers]
      have hiff := mem_foldl_condInsert
        (fun e => (List.lookup e w.poweredBy).isSome)
        (w.discharging.filter
          (fun p => decide (p.1 ∈ w.cubes) && decide (p.2 ≤ deltaMs)))
        w.powered cube
      constructor
      · intro hx
        rcases hiff.mp hx with hx2 | ⟨p, _, hcond, hkey⟩
        · exact absurd hx2 hnp
        · rw [← hkey]
          exact hcond
      · intro hsome
        exact hiff.mpr (Or.inr ⟨(cube, rem),
          List.mem_filter.mpr ⟨hmem, by simp [hcube, hfin]⟩, hsome, rfl⟩)

/-- Concrete world for the C3 witness: cube 4 in cooldown with its timer
about to finish, still `PoweredBy` charge pad 9; signal 11 is its own
rigid body. -/
def c3World : CubeWorld :=
  { powered := [5], powered_timers := [], discharging := [(4, 300)],
    inert := [], held := [], powering_up := [], poweredBy := [(4, 9)],
    cubes := [4, 5], signals := [11], colliderOf := [(7, 8), (11, 11)] }

/-- Witness for `C3_cube_discharge_cooldown` at `c3World`: cube 4's
cooldown finishes and it is re-powered because its `PoweredBy` remains. -/
theorem C3_cube_discharge_cooldown_witness :
    (c3World.discharging.map Prod.fst).Nodup ∧
    (11 : Entity) ≠ 4 ∧
    (4 ∈ (update_cube_discharge_timers c3World 300).powered ↔
      (List.lookup 4 c3World.poweredBy).isSome) :=
  ⟨by decide, by decide,
    ((C3_cube_discharge_cooldown c3World 4 11 7 11 [7] 300 300
        (by decide) (by decide)).2.2 (by decide) (by decide) (by decide)
        (by decide)).2⟩

/-- C10 (amended): the weighted-cube collision handler consumes a
signal only when it has an effect on the cube — it changes nothing when
the cube's body is already `Powered` without a `PoweredTimer` (cubes
never carry one) or is in `CubeDischarge` cooldown, and otherwise
powers the cube via a `DirectSignal` trigger and despawns the signal in
the same invocation.  But the signal is NOT consumed only when it
affects the cube: the legacy signals-module observer on the same
collider receives the colliding signal's own rigid body as
`OnCollisionStart.body` and, that body being unpowered, despawns the
signal unconditionally (inserting `Powered` on the signal entity
itself) while leaving every other entity — including the struck cube —
unchanged. -/
theorem C10_signal_consumption (w : CubeWorld)
    (signalCollider signalBody cubeCollider cubeBody : Entity)
    (hres : resolve_body w cubeCollider = cubeBody) :
    (cubeBody ∈ w.powered →
      (List.lookup cubeBody w.powered_timers).isNone →
      wc_cube_consume_signal w signalCollider cubeCollider = w) ∧
    ((List.lookup cubeBody w.discharging).isSome →
      wc_cube_consume_signal w signalCollider cubeCollider = w) ∧
    (signalCollider ∈ w.signals → cubeBody ∉ w.powered →
      (List.lookup cubeBody w.discharging).isNone →
        cubeBody ∈
          (wc_cube_consume_signal w signalCollider cubeCollider).powered ∧
        signalCollider ∉
          (wc_cube_consume_signal w signalCollider cubeCollider).signals) ∧
    (signalCollider ∈ w.signals → signalBody ∉ w.powered →
      signalCollider ∉
        (signals_cube_consume_signal w signalCollider
          (some signalBody)).signals ∧
      signalBody ∈
        (signals_cube_consume_signal w signalCollider
          (some signalBody)).powered ∧
      (∀ x, x ≠ signalBody →
        (x ∈ (signals_cube_consume_signal w signalCollider
            (some signalBody)).powered ↔ x ∈ w.powered))) := by
  refine ⟨?_, ?_, ?_, ?_⟩
  · intro hpow htim
    unfold wc_cube_consume_signal
    by_cases hs : signalCollider ∈ w.signals
    · rw [if_pos hs]
      simp only [hres]
      rw [if_neg]
      rintro ⟨hdisj, -⟩
      rcases hdisj with hnp | hsome
      · exact hnp hpow
      · rw [Option.isNone_iff_eq_none] at htim
        rw [htim] at hsome
        cases hsome
    · rw [if_neg hs]
  · intro hdis
    unfold wc_cube_consume_signal
    by_cases hs : signalCollider ∈ w.signals
    · rw [if_pos hs]
      simp only [hres]
      rw [if_neg]
      rintro ⟨-, hnone⟩
      rw [Option.isNone_iff_eq_none] at hnone
      rw [hnone] at hdis
      cases hdis
    · rw [if_neg hs]
  · intro hs hnp hnd
    unfold wc_cube_consume_signal
    rw [if_pos hs]
    simp only [hres]
    rw [if_pos ⟨Or.inl hnp, hnd⟩]
    unfold cube_direct_signal
    rw [if_pos ⟨hnp, hnd⟩]
    exact ⟨mem_insertE_self _ _, not_mem_removeE_self _ _⟩
  · intro hs hnp
    simp only [signals_cube_consume_signal]
    rw [if_pos hs, if_pos hnp]
    refine ⟨not_mem_removeE_self _ _, mem_insertE_self _ _, ?_⟩
    intro x hx
    dsimp only
    rw [mem_insertE_iff]
    constructor
    · rintro (h | h)
      · exact h
      · exact absurd h hx
    · exact Or.inl

/-- Concrete world for the C10 witness: unpowered cube 4 (body of
collider 6) not in cooldown, hit by signal 8 (its own rigid body). -/
def c10World : CubeWorld :=
  { powered := [], powered_timers := [], discharging := [],
    inert := [], held := [], powering_up := [], poweredBy := [],
    cubes := [4], signals := [8], colliderOf := [(6, 4), (8, 8)] }

/-- Witness for `C10_signal_consumption` at `c10World`: the cube is
powered and the signal despawned by the weighted-cube handler. -/
theorem C10_signal_consumption_witness :
    resolve_body c10World 6 = 4 ∧
    (4 ∈ (wc_cube_consume_signal c10World 8 6).powered ∧
      8 ∉ (wc_cube_consume_signal c10World 8 6).signals) :=
  ⟨by decide,
    (C10_signal_consumption c10World 8 8 6 4 (by decide)).2.2.1
      (by decide) (by decide) (by decide)⟩

/-- Concrete world for the C10 counterexample: cube 4 (body of
collider 6) is already `Powered`; signal 8, its own kinematic rigid
body, strikes it. -/
def c10CexWorld : CubeWorld :=
  { powered := [4], powered_timers := [], discharging := [],
    inert := [], held := [], powering_up := [], poweredBy := [],
    cubes := [4], signals := [8], colliderOf := [(6, 4), (8, 8)] }

/-- C10 counterexample: the struck cube is already `Powered` and the
weighted-cube handler indeed changes nothing — yet the signal IS
despawned: the legacy signals-module observer receives the signal's own
rigid body (entity 8) as `OnCollisionStart.body`, powers it and
despawns the signal, refuting the claim that when the cube is already
`Powered` neither the cube nor the signal is changed and in particular
the signal is not despawned. -/
theorem C10_counterexample :
    4 ∈ c10CexWorld.powered ∧
    wc_cube_consume_signal c10CexWorld 8 6 = c10CexWorld ∧
    8 ∉ (signals_cube_consume_signal c10CexWorld 8 (some 8)).signals ∧
    8 ∈ (signals_cube_consume_signal c10CexWorld 8 (some 8)).powered := by
  decide

/-- Filtering out another key does not change a lookup. -/
theorem lookup_filter_ne {β : Type} (l : List (Entity × β)) {k e : Entity}
    (h : k ≠ e) :
    List.lookup k (l.filter (fun p => p.1 ≠ e)) = List.lookup k l := by
  induction l with
  | nil => rfl
  | cons p t ih =>
    by_cases hp : p.1 = e
    · have : (decide (p.1 ≠ e)) = false := by simp [hp]
      rw [List.filter_cons, this]
      cases p with
      | mk a b =>
        simp only [List.lookup]
        have : (k == a) = false := by
          simp only [beq_eq_false_iff_ne, ne_eq]
          intro hk
          exact h (hk.trans hp)
        rw [this]
        exact ih
    · have : (decide (p.1 ≠ e)) = true := by simp [hp]
      rw [List.filter_cons, this]
      cases p with
      | mk a b =>
        simp only [List.lookup]
        cases hk : (k == a)
        · exact ih
        · rfl

/-! ### Charge pads (`src/game/pressure_plate.rs`)

`ChargePadDetector` holds at most one `charged_entity` plus the recorded
overlap set.  `on_charge_pad_entity_entered` charges an entrant only
when nothing is charged (and only grants `Powered`/`PoweredBy` when the
pad itself is `Powered`); `on_charge_pad_entity_left` releases the
charged entity (cubes keep `Powered`, everything else loses it) and
promotes at most one entity from the overlap set;
`charge_pad_lose_power` (on the pad losing `Powered`) performs the same
cube-aware depowering of the currently charged entity. -/

structure ChargePadDetector where
  charged_entity : Option Entity
  overlapping_entities : List Entity
deriving Repr, DecidableEq

structure PadWorld where
  pad : Entity
  detector : ChargePadDetector
  pad_powered : Bool
  powered : List Entity
  poweredBy : List (Entity × Entity)
  cubes : List Entity
deriving Repr, DecidableEq

/-- Bevy relationship insert with replacement (`insert(PoweredBy(..))`). -/
def setRel (l : List (Entity × Entity)) (e t : Entity) :
    List (Entity × Entity) :=
  (e, t) :: l.filter (fun p => p.1 ≠ e)

/-- Bevy relationship removal (`remove::<PoweredBy>()`). -/
def removeRel (l : List (Entity × Entity)) (e : Entity) :
    List (Entity × Entity) :=
  l.filter (fun p => p.1 ≠ e)

/-- Observer `on_charge_pad_entity_entered`: if nothing is charged the
entrant becomes the charged entity and — only when the pad itself is
`Powered` — receives `Powered` and `PoweredBy(pad)`. -/
def on_charge_pad_entity_entered (w : PadWorld) (entering : Entity) :
    PadWorld :=
  if w.detector.charged_entity = none then
    let w1 := { w with
      detector := { w.detector with charged_entity := some entering } }
    if w.pad_powered then
      { w1 with
          powered := insertE w1.powered entering,
          poweredBy := setRel w1.poweredBy entering w.pad }
    else w1
  else w

/-- The shared depowering block of `on_charge_pad_entity_left` and
`charge_pad_lose_power`: if the departing entity is `PoweredBy` this
pad, a non-cube loses `Powered` and `PoweredBy`, a weighted cube
retains `Powered` and loses only `PoweredBy`. -/
def charge_pad_depower (w : PadWorld) (leaving : Entity) : PadWorld :=
  match List.lookup leaving w.poweredBy with
  | some padRef =>
    if padRef = w.pad then
      if leaving ∉ w.cubes then
        { w with
            powered := removeE w.powered leaving,
            poweredBy := removeRel w.poweredBy leaving }
      else
        { w with poweredBy := removeRel w.poweredBy leaving }
    else w
  | none => w

/-- Observer `on_charge_pad_entity_left`: when the departing entity is
the charged one, clear `charged_entity`, run the depowering block, then
promote the first entity of the recorded overlap set (if any, and if it
is not the departing entity) to charged with `Powered` and
`PoweredBy(pad)`. -/
def on_charge_pad_entity_left (w : PadWorld) (leaving : Entity) : PadWorld :=
  if w.detector.charged_entity = some leaving then
    let w1 := { w with
      detector := { w.detector with charged_entity := none } }
    let w2 := charge_pad_depower w1 leaving
    match w2.detector.overlapping_entities.head? with
    | some next =>
      if next ≠ leaving then
        { w2 with
            detector := { w2.detector with charged_entity := some next },
            powered := insertE w2.powered next,
            poweredBy := setRel w2.poweredBy next w.pad }
      else w2
    | none => w2
  else w

/-- Observer `charge_pad_lose_power` (`OnRemove, Powered` on the pad),
restricted to its power bookkeeping: depower the currently charged
entity (cube-aware); `charged_entity` is left as is and nothing is
promoted. -/
def charge_pad_lose_power (w : PadWorld) : PadWorld :=
  match w.detector.charged_entity with
  | some charged => charge_pad_depower w charged
  | none => w

theorem lookup_removeRel_self (l : List (Entity × Entity)) (e : Entity) :
    List.lookup e (removeRel l e) = none := by
  apply lookup_eq_none_of_forall
  intro p hp
  have := (List.mem_filter.mp hp).2
  simpa using this

theorem depower_detector (w : PadWorld) (e : Entity) :
    (charge_pad_depower w e).detector = w.detector := by
  unfold charge_pad_depower
  cases List.lookup e w.poweredBy with
  | none => rfl
  | some padRef =>
    simp only
    split
    · split <;> rfl
    · rfl

theorem depower_powered_other (w : PadWorld) {x e : Entity} (h : x ≠ e) :
    x ∈ (charge_pad_depower w e).powered ↔ x ∈ w.powered := by
  unfold charge_pad_depower
  cases List.lookup e w.poweredBy with
  | none => rfl
  | some padRef =>
    simp only
    split
    · split
      · simp [mem_removeE_iff, h]
      · rfl
    · rfl

theorem depower_cube (w : PadWorld) {e : Entity}
    (hlk : List.lookup e w.poweredBy = some w.pad) (hc : e ∈ w.cubes) :
    (charge_pad_depower w e).powered = w.powered ∧
    List.lookup e (charge_pad_depower w e).poweredBy = none := by
  unfold charge_pad_depower
  rw [hlk]
  simp only [if_pos rfl]
  rw [if_neg (not_not_intro hc)]
  exact ⟨rfl, lookup_removeRel_self _ _⟩

theorem depower_noncube (w : PadWorld) {e : Entity}
    (hlk : List.lookup e w.poweredBy = some w.pad) (hc : e ∉ w.cubes) :
    e ∉ (charge_pad_depower w e).powered ∧
    List.lookup e (charge_pad_depower w e).poweredBy = none := by
  unfold charge_pad_depower
  rw [hlk]
  simp only [if_pos rfl]
  rw [if_pos hc]
  exact ⟨not_mem_removeE_self _ _, lookup_removeRel_self _ _⟩

theorem mem_of_head?_eq {l : List Entity} {a : Entity}
    (h : l.head? = some a) : a ∈ l := by
  cases l with
  | nil => cases h
  | cons x t =>
    have : x = a := by
      simpa using h
    rw [← this]
    exact List.mem_cons_self _ _

/-- C8: a charge pad charges at most one entity at a time: an entity
entering while another is charged leaves the world unchanged; entering
while nothing is charged makes the entrant the charged entity; a
departure of a non-charged entity changes nothing; when the charged
entity leaves, either nothing is promoted (charged becomes empty, no
other entity's `Powered` changes) or exactly one entity of the recorded
overlap set becomes charged, gains `Powered` and `PoweredBy(pad)`, and
every other entity's `Powered` is untouched. -/
theorem C8_charge_pad_single_charge (w : PadWorld) (entering leaving : Entity) :
    (∀ x, w.detector.charged_entity = some x →
      on_charge_pad_entity_entered w entering = w) ∧
    (w.detector.charged_entity = none →
      (on_charge_pad_entity_entered w entering).detector.charged_entity
        = some entering) ∧
    (w.detector.charged_entity ≠ some leaving →
      on_charge_pad_entity_left w leaving = w) ∧
    (w.detector.charged_entity = some leaving →
      (((on_charge_pad_entity_left w leaving).detector.charged_entity = none ∧
        ∀ x, x ≠ leaving →
          (x ∈ (on_charge_pad_entity_left w leaving).powered ↔
            x ∈ w.powered)) ∨
      (∃ next, next ∈ w.detector.overlapping_entities ∧ next ≠ leaving ∧
        (on_charge_pad_entity_left w leaving).detector.charged_entity
          = some next ∧
        next ∈ (on_charge_pad_entity_left w leaving).powered ∧
        List.lookup next (on_charge_pad_entity_left w leaving).poweredBy
          = some w.pad ∧
        ∀ x, x ≠ leaving → x ≠ next →
          (x ∈ (on_charge_pad_entity_left w leaving).powered ↔
            x ∈ w.powered)))) := by
  refine ⟨?_, ?_, ?_, ?_⟩
  · intro x hx
    unfold on_charge_pad_entity_entered
    rw [if_neg (by simp [hx])]
  · intro h
    unfold on_charge_pad_entity_entered
    rw [if_pos h]
    by_cases hp : w.pad_powered = true
    · rw [if_pos hp]
    · rw [if_neg hp]
  · intro h
    unfold on_charge_pad_entity_left
    rw [if_neg h]
  · intro h
    unfold on_charge_pad_entity_left
    rw [if_pos h]
    have hdet := depower_detector
      { w with detector := { w.detector with charged_entity := none } } leaving
    have hpow := fun (x : Entity) (hx : x ≠ leaving) => depower_powered_other
      { w with detector := { w.detector with charged_entity := none } }
      (e := leaving) hx
    dsimp only
    split
    · rename_i next heq
      rw [hdet] at heq
      dsimp only at heq
      by_cases hne : next ≠ leaving
      · rw [if_pos hne]
        refine Or.inr ⟨next, mem_of_head?_eq heq, hne, rfl,
          mem_insertE_self _ _, by simp [setRel, List.lookup], ?_⟩
        intro x hxl hxn
        simp only [mem_insertE_iff]
        rw [hpow x hxl]
        simp [hxn]
      · rw [if_neg hne]
        refine Or.inl ⟨?_, ?_⟩
        · rw [hdet]
        · intro x hx
          exact hpow x hx
    · rename_i heq
      refine Or.inl ⟨?_, ?_⟩
      · rw [hdet]
      · intro x hx
        exact hpow x hx

/-- Concrete world for the C8 witness: pad 2 charging entity 3, with
entity 4 still on the pad. -/
def c8World : PadWorld :=
  { pad := 2,
    detector := { charged_entity := some 3, overlapping_entities := [4] },
    pad_powered := true, powered := [3], poweredBy := [(3, 2)],
    cubes := [] }

/-- Witness for `C8_charge_pad_single_charge` at `c8World`: charged
entity 3 leaves and exactly one successor is promoted. -/
theorem C8_charge_pad_single_charge_witness :
    c8World.detector.charged_entity = some 3 ∧
    (((on_charge_pad_entity_left c8World 3).detector.charged_entity = none ∧
      ∀ x, x ≠ 3 →
        (x ∈ (on_charge_pad_entity_left c8World 3).powered ↔
          x ∈ c8World.powered)) ∨
    (∃ next, next ∈ c8World.detector.overlapping_entities ∧ next ≠ 3 ∧
      (on_charge_pad_entity_left c8World 3).detector.charged_entity
        = some next ∧
      next ∈ (on_charge_pad_entity_left c8World 3).powered ∧
      List.lookup next (on_charge_pad_entity_left c8World 3).poweredBy
        = some c8World.pad ∧
      ∀ x, x ≠ 3 → x ≠ next →
        (x ∈ (on_charge_pad_entity_left c8World 3).powered ↔
          x ∈ c8World.powered))) :=
  ⟨rfl, (C8_charge_pad_single_charge c8World 5 3).2.2.2 rfl⟩

/-- C9: when the entity a charge pad is charging leaves the pad (the
`ChargePadEntityLeft` observer) or the pad itself loses `Powered` (the
`charge_pad_lose_power` observer), and that entity's `PoweredBy` points
at this pad, a weighted cube keeps its `Powered` component and loses
only `PoweredBy`, while a non-cube loses both. -/
theorem C9_cubes_retain_power (w : PadWorld) (leaving : Entity)
    (hcharged : w.detector.charged_entity = some leaving)
    (hpb : List.lookup leaving w.poweredBy = some w.pad) :
    (leaving ∈ w.cubes →
      ((leaving ∈ (on_charge_pad_entity_left w leaving).powered ↔
          leaving ∈ w.powered) ∧
        List.lookup leaving (on_charge_pad_entity_left w leaving).poweredBy
          = none) ∧
      ((leaving ∈ (charge_pad_lose_power w).powered ↔
          leaving ∈ w.powered) ∧
        List.lookup leaving (charge_pad_lose_power w).poweredBy = none)) ∧
    (leaving ∉ w.cubes →
      (leaving ∉ (on_charge_pad_entity_left w leaving).powered ∧
        List.lookup leaving (on_charge_pad_entity_left w leaving).poweredBy
          = none) ∧
      (leaving ∉ (charge_pad_lose_power w).powered ∧
        List.lookup leaving (charge_pad_lose_power w).poweredBy = none)) := by
  have hlose : charge_pad_lose_power w = charge_pad_depower w leaving := by
    unfold charge_pad_lose_power
    rw [hcharged]
  constructor
  · intro hc
    have hdc := depower_cube w hpb hc
    refine ⟨?_, ?_⟩
    · unfold on_charge_pad_entity_left
      rw [if_pos hcharged]
      have hdc1 := depower_cube
        { w with detector := { w.detector with charged_entity := none } }
        (e := leaving) hpb hc
      dsimp only
      split
      · rename_i next heq
        by_cases hne : next ≠ leaving
        · rw [if_pos hne]
          constructor
          · dsimp only
            rw [mem_insertE_iff, hdc1.1]
            constructor
            · rintro (hx | hx)
              · exact hx
              · exact absurd hx.symm hne
            · exact Or.inl
          · dsimp only
            simp only [setRel]
            have hbeq : (leaving == next) = false := by
              simp only [beq_eq_false_iff_ne, ne_eq]
              exact fun h => hne h.symm
            simp only [List.lookup, hbeq]
            rw [lookup_filter_ne _ (fun h => hne h.symm)]
            exact hdc1.2
        · rw [if_neg hne]
          exact ⟨by rw [hdc1.1], hdc1.2⟩
      · exact ⟨by rw [hdc1.1], hdc1.2⟩
    · rw [hlose]
      exact ⟨by rw [hdc.1], hdc.2⟩
  · intro hc
    have hdc := depower_noncube w hpb hc
    refine ⟨?_, ?_⟩
    · unfold on_charge_pad_entity_left
      rw [if_pos hcharged]
      have hdc1 := depower_noncube
        { w with detector := { w.detector with charged_entity := none } }
        (e := leaving) hpb hc
      dsimp only
      split
      · rename_i next heq
        by_cases hne : next ≠ leaving
        · rw [if_pos hne]
          constructor
          · dsimp only
            rw [mem_insertE_iff]
            rintro (habs | habs)
            · exact hdc1.1 habs
            · exact hne habs.symm
          · dsimp only
            simp only [setRel]
            have hbeq : (leaving == next) = false := by
              simp only [beq_eq_false_iff_ne, ne_eq]
              exact fun h => hne h.symm
            simp only [List.lookup, hbeq]
            rw [lookup_filter_ne _ (fun h => hne h.symm)]
            exact hdc1.2
        · rw [if_neg hne]
          exact hdc1
      · exact hdc1
    · rw [hlose]
      exact hdc

/-- Concrete world for the C9 witness: pad 2 charging cube 3 which is
`PoweredBy` the pad. -/
def c9World : PadWorld :=
  { pad := 2,
    detector := { charged_entity := some 3, overlapping_entities := [] },
    pad_powered := true, powered := [3, 2], poweredBy := [(3, 2)],
    cubes := [3] }

/-- Witness for `C9_cubes_retain_power` at `c9World`: cube 3 keeps
`Powered` and loses only `PoweredBy` when it leaves the pad. -/
theorem C9_cubes_retain_power_witness :
    c9World.detector.charged_entity = some 3 ∧
    List.lookup 3 c9World.poweredBy = some c9World.pad ∧
    ((3 ∈ (on_charge_pad_entity_left c9World 3).powered ↔
        3 ∈ c9World.powered) ∧
      List.lookup 3 (on_charge_pad_entity_left c9World 3).poweredBy = none) :=
  ⟨rfl, by decide,
    ((C9_cubes_retain_power c9World 3 rfl (by decide)).1 (by decide)).1⟩

/-! ### Discharge gates (`src/game/discharge_gate.rs`)

`handle_discharge_collisions` is an `OnCollisionStart` observer on a
gate's collider child.  It verifies the collision target's parent is a
`DischargeGate`, then removes `Powered` from the colliding rigid body if
powered, otherwise from the powered object held in a colliding player's
right hand. -/

structure GateWorld where
  powered : List Entity
  child_of : List (Entity × Entity)
  discharge_gates : List Entity
  colliderOf : List (Entity × Entity)
  right_hands : List (Entity × Option Entity)
deriving Repr, DecidableEq

/-- Observer `handle_discharge_collisions`: `target` is
`trigger.target()` (the gate collider child), `collider` is
`trigger.collider` (the colliding collider entity). -/
def handle_discharge_collisions (w : GateWorld) (collider target : Entity) :
    GateWorld :=
  match List.lookup target w.child_of with
  | some parent =>
    if parent ∈ w.discharge_gates then
      match List.lookup collider w.colliderOf with
      | some body =>
        if body ∈ w.powered then
          { w with powered := removeE w.powered body }
        else
          match List.lookup body w.right_hands with
          | some (some held) =>
            if held ∈ w.powered then
              { w with powered := removeE w.powered held }
            else w
          | some none => w
          | none => w
      | none => w
    else w
  | none => w

theorem handle_discharge_subset (w : GateWorld) (collider target x : Entity)
    (hx : x ∈ (handle_discharge_collisions w collider target).powered) :
    x ∈ w.powered := by
  unfold handle_discharge_collisions at hx
  split at hx
  · split at hx
    · split at hx
      · split at hx
        · exact ((mem_removeE_iff _ _ _).mp hx).1
        · split at hx
          · split at hx
            · exact ((mem_removeE_iff _ _ _).mp hx).1
            · exact hx
          · exact hx
          · exact hx
      · exact hx
    · exact hx
  · exact hx

/-- C6: for every collision delivered to the discharge-gate collision
handler: without a `DischargeGate` parent on the target nothing changes;
with one, a `Powered` colliding body loses exactly its own `Powered` and
nothing else changes; an unpowered colliding player body holding a
`Powered` object in its right hand loses that object's `Powered`; and
the handler never inserts `Powered` on any entity. -/
theorem C6_discharge_gate (w : GateWorld)
    (collider target parent body held : Entity) :
    (List.lookup target w.child_of = none →
      handle_discharge_collisions w collider target = w) ∧
    (List.lookup target w.child_of = some parent →
      parent ∉ w.discharge_gates →
      handle_discharge_collisions w collider target = w) ∧
    (List.lookup target w.child_of = some parent →
      parent ∈ w.discharge_gates →
      List.lookup collider w.colliderOf = some body →
      body ∈ w.powered →
        body ∉ (handle_discharge_collisions w collider target).powered ∧
        (∀ x, x ≠ body →
          (x ∈ (handle_discharge_collisions w collider target).powered ↔
            x ∈ w.powered)) ∧
        (handle_discharge_collisions w collider target).child_of
          = w.child_of ∧
        (handle_discharge_collisions w collider target).colliderOf
          = w.colliderOf ∧
        (handle_discharge_collisions w collider target).right_hands
          = w.right_hands) ∧
    (List.lookup target w.child_of = some parent →
      parent ∈ w.discharge_gates →
      List.lookup collider w.colliderOf = some body →
      body ∉ w.powered →
      List.lookup body w.right_hands = some (some held) →
      held ∈ w.powered →
        held ∉ (handle_discharge_collisions w collider target).powered) ∧
    (∀ x, x ∈ (handle_discharge_collisions w collider target).powered →
      x ∈ w.powered) := by
  refine ⟨?_, ?_, ?_, ?_, handle_discharge_subset w collider target⟩
  · intro h
    unfold handle_discharge_collisions
    rw [h]
  · intro h hg
    unfold handle_discharge_collisions
    rw [h]
    simp only [if_neg hg]
  · intro h hg hc hp
    unfold handle_discharge_collisions
    rw [h]
    simp only [if_pos hg]
    rw [hc]
    simp only [if_pos hp]
    refine ⟨not_mem_removeE_self _ _, ?_, ?_, ?_, ?_⟩
    · intro x hx
      simp [mem_removeE_iff, hx]
    · trivial
    · trivial
    · trivial
  · intro h hg hc hp hrh hheld
    unfold handle_discharge_collisions
    rw [h]
    simp only [if_pos hg]
    rw [hc]
    simp only [if_neg hp]
    rw [hrh]
    simp only [if_pos hheld]
    exact not_mem_removeE_self _ _

/-- Concrete world for the C6 witness: gate collider 10 (child of gate
11), powered body 12 resolved from collider 13. -/
def c6World : GateWorld :=
  { powered := [12], child_of := [(10, 11)], discharge_gates := [11],
    colliderOf := [(13, 12)], right_hands := [] }

/-- Witness for `C6_discharge_gate` at `c6World`: powered body 12 is
discharged by the gate. -/
theorem C6_discharge_gate_witness :
    List.lookup 10 c6World.child_of = some 11 ∧
    11 ∈ c6World.discharge_gates ∧
    12 ∉ (handle_discharge_collisions c6World 13 10).powered :=
  ⟨by decide, by decide,
    ((C6_discharge_gate c6World 13 10 11 12 0).2.2.1 (by decide) (by decide)
      (by decide) (by decide)).1⟩

/-! ### Signals: lifetime and travel (`src/game/signals.rs`)

`signal_after_delay` spawns the projected light pulse once the charge
delay has elapsed (and the spitter's transform is available), giving it
a `DespawnAfter` of `MAX_SIGNAL_LIFETIME_SECS` = 10 s and a 10-second
linear translation tween from the start position to the start position
plus `MAX_SIGNAL_TRAVEL_DIST` = 500 units along the spitter's facing
direction (a unit vector, so the travelled distance is the tween
offset).  `despawn_after_system` ticks the `DespawnAfter` timer each
frame and despawns the entity once it finishes. -/

def MAX_SIGNAL_TRAVEL_DIST : ℚ := 500

def MAX_SIGNAL_LIFETIME_SECS : Nat := 10

structure SpawnedSignal where
  despawn_after_ms : Nat
  tween_duration_ms : Nat
  tween_dist : ℚ
deriving Repr, DecidableEq

/-- One `signal_after_delay` check for one waiting `SignalAfterDelay`
entity: once the elapsed time reaches the delay and the parent's
`GlobalTransform` is available, the signal is spawned with its despawn
timer and translation tween. -/
def signal_after_delay (elapsed_ms delay_ms : Nat) (parent_exists : Bool) :
    Option SpawnedSignal :=
  if elapsed_ms ≥ delay_ms then
    if parent_exists then
      some { despawn_after_ms := MAX_SIGNAL_LIFETIME_SECS * 1000,
             tween_duration_ms := MAX_SIGNAL_LIFETIME_SECS * 1000,
             tween_dist := MAX_SIGNAL_TRAVEL_DIST }
    else none
  else none

/-- Distance of the signal from its spawn point under the linear
translation tween after `t_ms` milliseconds (the tween runner clamps
progress at the tween's duration). -/
def signal_offset (s : SpawnedSignal) (t_ms : Nat) : ℚ :=
  s.tween_dist * ((min t_ms s.tween_duration_ms : Nat) : ℚ)
    / (s.tween_duration_ms : ℚ)

/-- One `despawn_after_system` tick for one `DespawnAfter` timer:
despawn (`none`) once the timer finishes. -/
def despawn_after_run (remaining deltaMs : Nat) : Option Nat :=
  if remaining ≤ deltaMs then none else some (remaining - deltaMs)

/-- The signal's `DespawnAfter` state after a sequence of frame deltas
(`none` = despawned). -/
def signal_alive_after (s : SpawnedSignal) (ticks : List Nat) : Option Nat :=
  ticks.foldl
    (fun st delta =>
      match st with
      | some rem => despawn_after_run rem delta
      | none => none)
    (some s.despawn_after_ms)

theorem despawn_fold_none (ticks : List Nat) :
    ticks.foldl
      (fun st delta =>
        match st with
        | some rem => despawn_after_run rem delta
        | none => none)
      (none : Option Nat) = none := by
  induction ticks with
  | nil => rfl
  | cons d ds ih => exact ih

theorem despawn_fold_dead {rem : Nat} (ticks : List Nat)
    (hpos : 0 < rem) (h : rem ≤ ticks.sum) :
    ticks.foldl
      (fun st delta =>
        match st with
        | some rem => despawn_after_run rem delta
        | none => none)
      (some rem) = none := by
  induction ticks generalizing rem with
  | nil =>
    simp only [List.sum_nil, Nat.le_zero] at h
    omega
  | cons d ds ih =>
    simp only [List.foldl_cons]
    by_cases hd : rem ≤ d
    · simp only [despawn_after_run, if_pos hd]
      exact despawn_fold_none ds
    · simp only [despawn_after_run, if_neg hd]
      apply ih
      · omega
      · simp only [List.sum_cons] at h
        omega

/-- C5: every signal spawned after a spitter's charge delay carries a
10-second despawn timer and a 10-second linear tween covering 500
units; consequently the signal is despawned by `despawn_after_system`
on the first frame at which 10 seconds have accumulated, and the tween
never moves it farther than 500 units from its spawn point. -/
theorem C5_signal_lifetime (elapsed_ms delay_ms : Nat) (s : SpawnedSignal)
    (h : signal_after_delay elapsed_ms delay_ms true = some s) :
    s.despawn_after_ms = MAX_SIGNAL_LIFETIME_SECS * 1000 ∧
    s.tween_duration_ms = MAX_SIGNAL_LIFETIME_SECS * 1000 ∧
    s.tween_dist = MAX_SIGNAL_TRAVEL_DIST ∧
    (∀ ticks : List Nat, s.despawn_after_ms ≤ ticks.sum →
      signal_alive_after s ticks = none) ∧
    (∀ t_ms : Nat, signal_offset s t_ms ≤ MAX_SIGNAL_TRAVEL_DIST) := by
  unfold signal_after_delay at h
  by_cases hd : elapsed_ms ≥ delay_ms
  · rw [if_pos hd, if_pos rfl] at h
    have hs := (Option.some_inj.mp h).symm
    subst hs
    refine ⟨rfl, rfl, rfl, ?_, ?_⟩
    · intro ticks hsum
      exact despawn_fold_dead ticks (by norm_num [MAX_SIGNAL_LIFETIME_SECS]) hsum
    · intro t_ms
      unfold signal_offset
      simp only [MAX_SIGNAL_TRAVEL_DIST, MAX_SIGNAL_LIFETIME_SECS]
      rw [div_le_iff₀ (by norm_num)]
      have hmin : ((min t_ms (10 * 1000) : Nat) : ℚ) ≤ ((10 * 1000 : Nat) : ℚ) := by
        exact_mod_cast Nat.min_le_right _ _
      exact mul_le_mul_of_nonneg_left hmin (by norm_num)
  · rw [if_neg hd] at h
    cases h

/-- The concrete spawned signal for the C5 witness. -/
def c5Signal : SpawnedSignal :=
  { despawn_after_ms := 10000, tween_duration_ms := 10000,
    tween_dist := 500 }

/-- Witness for `C5_signal_lifetime`: a signal spawned 1.5 s after its
1-second charge delay is dead once 10 s of frames have passed and never
travels past 500 units. -/
theorem C5_signal_lifetime_witness :
    signal_after_delay 1500 1000 true = some c5Signal ∧
    signal_alive_after c5Signal [4000, 4000, 2000] = none ∧
    signal_offset c5Signal 12000 ≤ MAX_SIGNAL_TRAVEL_DIST :=
  ⟨by decide,
    (C5_signal_lifetime 1500 1000 c5Signal (by decide)).2.2.2.1
      [4000, 4000, 2000] (by decide),
    (C5_signal_lifetime 1500 1000 c5Signal (by decide)).2.2.2.2 12000⟩

/-! ### Failure handling: the skip idiom and the handlers that panic
(`register_cube_signals` in `src/game/weighted_cube.rs` and
`src/game/signals.rs`, `register_pressure_plates` in
`src/game/pressure_plate.rs`, `big_red_button_interaction` and
`weighted_cube_interaction` in `src/game/interaction.rs`)

The three registration systems share the same per-child block: a
missing `MeshMaterial3d<UnlitMaterial>` component is skipped with
`if let Ok(..)`, but a handle whose asset is missing from
`Assets<UnlitMaterial>` hits `unlit_materials.get(handle).unwrap()`,
which panics.  The `big_red_button_interaction` observer likewise
unwraps its `ColliderOf` and body `GlobalTransform` lookups and panics
when either component is absent, while `weighted_cube_interaction`
next to it uses the `if let Ok` skip idiom.  `none` models a panic. -/

abbrev Handle := Nat

/-- The per-child material-duplication loop shared by the cited
registration systems.  Children are (entity, optional material handle);
the asset store maps handles to materials (abstracted as `Nat`).
Returns the effects applied, or `none` when `unwrap()` panics. -/
def register_cube_signals (children : List (Entity × Option Handle))
    (assets : List (Handle × Nat)) : Option (List (Entity × Nat)) :=
  children.foldl
    (fun acc child =>
      match acc with
      | none => none
      | some effects =>
        match child.2 with
        | some h =>
          match List.lookup h assets with
          | some material => some (effects ++ [(child.1, material)])
          | none => none
        | none => some effects)
    (some [])

theorem register_fold_none (children : List (Entity × Option Handle))
    (assets : List (Handle × Nat)) :
    children.foldl
      (fun acc child =>
        match acc with
        | none => none
        | some effects =>
          match child.2 with
          | some h =>
            match List.lookup h assets with
            | some material => some (effects ++ [(child.1, material)])
            | none => none
          | none => some effects)
      (none : Option (List (Entity × Nat))) = none := by
  induction children with
  | nil => rfl
  | cons c cs ih => exact ih

theorem register_fold_panic (assets : List (Handle × Nat))
    {c : Entity} {h : Handle} :
    ∀ (children : List (Entity × Option Handle))
      (acc : List (Entity × Nat)),
      (c, some h) ∈ children → List.lookup h assets = none →
      children.foldl
        (fun acc child =>
          match acc with
          | none => none
          | some effects =>
            match child.2 with
            | some h =>
              match List.lookup h assets with
              | some material => some (effects ++ [(child.1, material)])
              | none => none
            | none => some effects)
        (some acc) = none := by
  intro children
  induction children with
  | nil =>
    intro acc hmem _
    cases hmem
  | cons ch cs ih =>
    intro acc hmem hnone
    simp only [List.foldl_cons]
    rcases List.mem_cons.mp hmem with heq | hmem2
    · rw [← heq]
      simp only
      rw [hnone]
      exact register_fold_none cs assets
    · cases hch : ch.2 with
      | none =>
        simp only
        exact ih _ hmem2 hnone
      | some g =>
        simp only
        cases hg : List.lookup g assets with
        | none => exact register_fold_none cs assets
        | some m => exact ih _ hmem2 hnone

/-- Observer `big_red_button_interaction` (its two leading component
fetches): it unwraps the `ColliderOf` of the pressed button collider
and then unwraps the body's `GlobalTransform`
(`With<RigidBody>, Without<CubeSpitter>` query, modelled as the
`body_transforms` member list).  On success the anchor body for the
spawned button signal is returned; `none` models the panic of either
`unwrap()`. -/
def big_red_button_interaction (colliderOf : List (Entity × Entity))
    (body_transforms : List Entity) (target : Entity) : Option Entity :=
  match List.lookup target colliderOf with
  | some body => if body ∈ body_transforms then some body else none
  | none => none

/-- Observer `weighted_cube_interaction`: with the `if let Ok` idiom, a
missing `ColliderOf` silently skips; otherwise an empty right hand
picks up the cube's body.  Returns the new held object. -/
def weighted_cube_interaction (colliderOf : List (Entity × Entity))
    (held_object : Option Entity) (target : Entity) : Option Entity :=
  match List.lookup target colliderOf with
  | some body =>
    match held_object with
    | none => some body
    | some h => some h
  | none => held_object

/-- C4 (amended): the dominant failure-handling idiom is to silently
skip when an expected component or entity is absent — a registration
child without a material handle is skipped without effect, and the cube
pick-up observer leaves the hand unchanged when `ColliderOf` is missing
— but it is not universal: the registration systems panic (`unwrap()`)
when a present handle's asset is missing from the asset store, and the
big-red-button interaction observer panics when the button's
`ColliderOf` or its body's `GlobalTransform` component is missing. -/
theorem C4_registration_skip_or_panic
    (children : List (Entity × Option Handle))
    (assets : List (Handle × Nat)) (c : Entity) (h : Handle)
    (colliderOf : List (Entity × Entity)) (body_transforms : List Entity)
    (held : Option Entity) (target body : Entity) :
    ((∀ ch ∈ children, ch.2 = none) →
      register_cube_signals children assets = some []) ∧
    (List.lookup target colliderOf = none →
      weighted_cube_interaction colliderOf held target = held) ∧
    ((c, some h) ∈ children → List.lookup h assets = none →
      register_cube_signals children assets = none) ∧
    (List.lookup target colliderOf = none →
      big_red_button_interaction colliderOf body_transforms target
        = none) ∧
    (List.lookup target colliderOf = some body →
      body ∉ body_transforms →
      big_red_button_interaction colliderOf body_transforms target
        = none) := by
  refine ⟨?_, ?_, ?_, ?_, ?_⟩
  · intro hall
    unfold register_cube_signals
    induction children with
    | nil => rfl
    | cons ch cs ih =>
      simp only [List.foldl_cons]
      rw [hall ch (List.mem_cons_self _ _)]
      exact ih fun q hq => hall q (List.mem_cons_of_mem _ hq)
  · intro hnone
    unfold weighted_cube_interaction
    rw [hnone]
  · intro hmem hnone
    unfold register_cube_signals
    exact register_fold_panic assets children [] hmem hnone
  · intro hnone
    unfold big_red_button_interaction
    rw [hnone]
  · intro hsome hnot
    unfold big_red_button_interaction
    rw [hsome]
    simp only [if_neg hnot]

/-- Witness for `C4_registration_skip_or_panic`: a child without a
material handle is skipped, a cube pick-up with missing `ColliderOf`
skips, a child whose handle has no asset panics, and the button
observer panics on a missing `ColliderOf`. -/
theorem C4_registration_skip_or_panic_witness :
    (∀ ch ∈ ([(1, none)] : List (Entity × Option Handle)), ch.2 = none) ∧
    register_cube_signals [(1, none)] [] = some [] ∧
    weighted_cube_interaction [] (some 9) 3 = some 9 ∧
    register_cube_signals [(2, some 7)] [] = none ∧
    big_red_button_interaction [] [] 3 = none :=
  ⟨by decide,
    (C4_registration_skip_or_panic [(1, none)] [] 0 0 [] [] none 3 0).1
      (by decide),
    (C4_registration_skip_or_panic [] [] 0 0 [] [] (some 9) 3 0).2.1
      (by decide),
    (C4_registration_skip_or_panic [(2, some 7)] [] 2 7 [] [] none 3 0).2.2.1
      (by decide) (by decide),
    (C4_registration_skip_or_panic [] [] 0 0 [] [] none 3 0).2.2.2.1
      (by decide)⟩

/-- C4 counterexample: child 1 carries material handle 7 but the asset
store is empty; the registration handler panics (the `unwrap()` on the
missing asset, modelled as `none`) instead of silently skipping. -/
theorem C4_counterexample :
    register_cube_signals [(1, some 7)] [] = none := by
  decide

/-! ### Scheduling of the gameplay systems (`src/game/mod.rs` and each
module's plugin function)

Every `add_systems`/`add_observer` registration made by the plugins in
`gameplay_plugins` (player, input, interaction, signals, pressure_plate,
dissolve_gate, door, inert, signal_spitter, cube_spitter, weighted_cube,
standing_cube_spitter, button, discharge_gate, signal_preview, plus
`mod.rs` itself), transcribed one entry per registration. -/

inductive Schedule
  | FixedPreUpdate
  | FixedUpdate
  | FixedLast
  | Update
  | PostUpdate
  | PreUpdate
  | Startup
  | OnEnterPlaying
deriving Repr, DecidableEq

inductive Registration
  | system (name : String) (sched : Schedule)
  | observer (name : String)
deriving Repr, DecidableEq

open Schedule in
/-- All plugin-level registrations of the gameplay plugin set. -/
def gameplay_registrations : List Registration :=
  [ .system "despawn_tween_on_finish" PostUpdate,
    .system "rotate_camera" PreUpdate,
    .system "camera_follow_player" PostUpdate,
    .system "move_player" FixedUpdate,
    .system "jump" FixedUpdate,
    .system "project_held_placable_item" PreUpdate,
    .system "picked_up_item" Update,
    .system "spawn_player" OnEnterPlaying,
    .observer "released_item",
    .observer "update_input_binding",
    .observer "fixed_update_input_binding",
    .system "spawn_input_manager" Startup,
    .observer "interact",
    .system "register_big_red_button_interaction" Update,
    .system "register_weighted_cube_interaction" Update,
    .system "register_signal_spitter_interaction" Update,
    .system "despawn_after_system" Update,
    .system "register_cube_spitter_signals" Update,
    .system "register_cube_signals" Update,
    .system "cube_receive_power" Update,
    .system "register_signal_spitter_signals" Update,
    .system "signal_after_delay" Update,
    .system "register_pressure_plates" FixedPreUpdate,
    .system "register_charge_pads" FixedPreUpdate,
    .system "update_pressure_plate_overlaps" FixedUpdate,
    .system "update_charge_pad_overlaps" FixedUpdate,
    .system "register_dissolve_gates" FixedPreUpdate,
    .system "register_doors" FixedPreUpdate,
    .system "update_powered_timers" FixedUpdate,
    .system "check_door_power_requirements" Update,
    .system "register_inert" FixedPreUpdate,
    .system "register_signal_spitter_signals" FixedPreUpdate,
    .system "handle_continuous_signal_emission" FixedUpdate,
    .system "register_cube_spitter_signals" FixedPreUpdate,
    .system "check_and_replace_wall_cubes" FixedLast,
    .system "register_cube_signals" FixedPreUpdate,
    .system "cube_receive_power" FixedUpdate,
    .system "cube_discharge_detection" FixedUpdate,
    .system "update_cube_discharge_timers" FixedUpdate,
    .system "update_powering_up_timers" FixedUpdate,
    .system "fix_stuck_powered_cubes" FixedUpdate,
    .system "register_standing_cube_spitter_signals" Update,
    .system "handle_continuous_cube_emission" Update,
    .system "cube_after_delay" Update,
    .system "register_buttons" FixedPreUpdate,
    .system "update_delayed_signals" Update,
    .system "register_discharge_gates" FixedPreUpdate,
    .system "update_signal_preview" FixedUpdate,
    .system "cleanup_signal_preview_on_drop" FixedUpdate,
    .system "cleanup_signal_preview_on_invalid_placement" FixedUpdate,
    .system "initialize_signal_preview" FixedUpdate ]

/-- The schedules named by the claim: fixed-timestep stages plus the
variable-timestep Update and PostUpdate. -/
def claimed_schedules : List Schedule :=
  [ .FixedPreUpdate, .FixedUpdate, .FixedLast, .Update, .PostUpdate ]

/-- Whether a registration satisfies the claim as stated. -/
def registration_ok (r : Registration) : Bool :=
  match r with
  | .system _ sched => claimed_schedules.contains sched
  | .observer _ => true

/-- Whether a registration is in one of the schedules the code actually
uses: the claimed ones plus PreUpdate, Startup and the
`OnEnter(GameState::Playing)` state transition. -/
def registration_ok_amended (r : Registration) : Bool :=
  match r with
  | .system _ sched =>
      (claimed_schedules ++
        [Schedule.PreUpdate, Schedule.Startup, Schedule.OnEnterPlaying]).contains
        sched
  | .observer _ => true

/-- C7 (amended): every registration made by the gameplay plugins is
either an observer or a system in FixedPreUpdate, FixedUpdate,
FixedLast, PreUpdate, Update, PostUpdate, Startup, or the
`OnEnter(GameState::Playing)` transition schedule. -/
theorem C7_gameplay_scheduling :
    gameplay_registrations.all registration_ok_amended = true := by
  decide

/-- C7 counterexample: `rotate_camera` (and also
`project_held_placable_item`, `spawn_input_manager`, `spawn_player`) is
registered by a gameplay plugin outside the claim's stage list —
in PreUpdate (resp. Startup, OnEnter). -/
theorem C7_counterexample :
    Registration.system "rotate_camera" Schedule.PreUpdate
        ∈ gameplay_registrations ∧
    registration_ok
      (Registration.system "rotate_camera" Schedule.PreUpdate) = false := by
  decide
